import Mathlib

/-!
Shallow embedding of the two filter pipelines of `open-webui-pipelines`:

* `src/examples/filters/audit_log_filter_pipeline.py`
* `src/examples/filters/message_length_filter_pipeline.py`

Python values are modelled by the inductive `PyVal`; dictionaries appearing in
the request bodies use string keys only (every key this code touches is a
string literal).  Mutation of the Python `body` dict is modelled by explicit
state passing: each stage function returns the updated body.  Nondeterministic
inputs (UTC timestamps, freshly generated UUID4 strings) are passed in as
explicit string parameters.  Python exceptions are modelled with `Except PyErr`.
-/

namespace OWP

/-- Model of a Python value.  `obj s` stands for a Python object that `json`
cannot serialize (`s` names its type, e.g. `"set"`). -/
inductive PyVal where
  | none : PyVal
  | bool : Bool → PyVal
  | int : Int → PyVal
  | str : String → PyVal
  | list : List PyVal → PyVal
  | dict : List (String × PyVal) → PyVal
  | obj : String → PyVal
deriving Repr

mutual

/-- Decidable structural equality on `PyVal` (the nested inductive defeats
`deriving DecidableEq`, so it is spelt out). -/
def PyVal.decEq : (a b : PyVal) → Decidable (a = b)
  | .none, .none => .isTrue rfl
  | .bool a, .bool b =>
      if h : a = b then .isTrue (h ▸ rfl) else .isFalse (fun hh => h (PyVal.bool.inj hh))
  | .int a, .int b =>
      if h : a = b then .isTrue (h ▸ rfl) else .isFalse (fun hh => h (PyVal.int.inj hh))
  | .str a, .str b =>
      if h : a = b then .isTrue (h ▸ rfl) else .isFalse (fun hh => h (PyVal.str.inj hh))
  | .obj a, .obj b =>
      if h : a = b then .isTrue (h ▸ rfl) else .isFalse (fun hh => h (PyVal.obj.inj hh))
  | .list xs, .list ys =>
      match PyVal.decEqList xs ys with
      | .isTrue h => .isTrue (h ▸ rfl)
      | .isFalse h => .isFalse (fun hh => h (PyVal.list.inj hh))
  | .dict xs, .dict ys =>
      match PyVal.decEqKVs xs ys with
      | .isTrue h => .isTrue (h ▸ rfl)
      | .isFalse h => .isFalse (fun hh => h (PyVal.dict.inj hh))
  | .none, .bool _ => .isFalse (fun h => PyVal.noConfusion h)
  | .none, .int _ => .isFalse (fun h => PyVal.noConfusion h)
  | .none, .str _ => .isFalse (fun h => PyVal.noConfusion h)
  | .none, .list _ => .isFalse (fun h => PyVal.noConfusion h)
  | .none, .dict _ => .isFalse (fun h => PyVal.noConfusion h)
  | .none, .obj _ => .isFalse (fun h => PyVal.noConfusion h)
  | .bool _, .none => .isFalse (fun h => PyVal.noConfusion h)
  | .bool _, .int _ => .isFalse (fun h => PyVal.noConfusion h)
  | .bool _, .str _ => .isFalse (fun h => PyVal.noConfusion h)
  | .bool _, .list _ => .isFalse (fun h => PyVal.noConfusion h)
  | .bool _, .dict _ => .isFalse (fun h => PyVal.noConfusion h)
  | .bool _, .obj _ => .isFalse (fun h => PyVal.noConfusion h)
  | .int _, .none => .isFalse (fun h => PyVal.noConfusion h)
  | .int _, .bool _ => .isFalse (fun h => PyVal.noConfusion h)
  | .int _, .str _ => .isFalse (fun h => PyVal.noConfusion h)
  | .int _, .list _ => .isFalse (fun h => PyVal.noConfusion h)
  | .int _, .dict _ => .isFalse (fun h => PyVal.noConfusion h)
  | .int _, .obj _ => .isFalse (fun h => PyVal.noConfusion h)
  | .str _, .none => .isFalse (fun h => PyVal.noConfusion h)
  | .str _, .bool _ => .isFalse (fun h => PyVal.noConfusion h)
  | .str _, .int _ => .isFalse (fun h => PyVal.noConfusion h)
  | .str _, .list _ => .isFalse (fun h => PyVal.noConfusion h)
  | .str _, .dict _ => .isFalse (fun h => PyVal.noConfusion h)
  | .str _, .obj _ => .isFalse (fun h => PyVal.noConfusion h)
  | .list _, .none => .isFalse (fun h => PyVal.noConfusion h)
  | .list _, .bool _ => .isFalse (fun h => PyVal.noConfusion h)
  | .list _, .int _ => .isFalse (fun h => PyVal.noConfusion h)
  | .list _, .str _ => .isFalse (fun h => PyVal.noConfusion h)
  | .list _, .dict _ => .isFalse (fun h => PyVal.noConfusion h)
  | .list _, .obj _ => .isFalse (fun h => PyVal.noConfusion h)
  | .dict _, .none => .isFalse (fun h => PyVal.noConfusion h)
  | .dict _, .bool _ => .isFalse (fun h => PyVal.noConfusion h)
  | .dict _, .int _ => .isFalse (fun h => PyVal.noConfusion h)
  | .dict _, .str _ => .isFalse (fun h => PyVal.noConfusion h)
  | .dict _, .list _ => .isFalse (fun h => PyVal.noConfusion h)
  | .dict _, .obj _ => .isFalse (fun h => PyVal.noConfusion h)
  | .obj _, .none => .isFalse (fun h => PyVal.noConfusion h)
  | .obj _, .bool _ => .isFalse (fun h => PyVal.noConfusion h)
  | .obj _, .int _ => .isFalse (fun h => PyVal.noConfusion h)
  | .obj _, .str _ => .isFalse (fun h => PyVal.noConfusion h)
  | .obj _, .list _ => .isFalse (fun h => PyVal.noConfusion h)
  | .obj _, .dict _ => .isFalse (fun h => PyVal.noConfusion h)

def PyVal.decEqList : (xs ys : List PyVal) → Decidable (xs = ys)
  | [], [] => .isTrue rfl
  | [], _ :: _ => .isFalse (fun h => List.noConfusion h)
  | _ :: _, [] => .isFalse (fun h => List.noConfusion h)
  | x :: xs, y :: ys =>
      match PyVal.decEq x y with
      | .isFalse h => .isFalse (fun hh => by injection hh with h1 _; exact h h1)
      | .isTrue h1 =>
          match PyVal.decEqList xs ys with
          | .isTrue h2 => .isTrue (by rw [h1, h2])
          | .isFalse h => .isFalse (fun hh => by injection hh with _ h2; exact h h2)

def PyVal.decEqKVs : (xs ys : List (String × PyVal)) → Decidable (xs = ys)
  | [], [] => .isTrue rfl
  | [], _ :: _ => .isFalse (fun h => List.noConfusion h)
  | _ :: _, [] => .isFalse (fun h => List.noConfusion h)
  | (k, v) :: xs, (l, w) :: ys =>
      if hk : k = l then
        match PyVal.decEq v w with
        | .isFalse h =>
            .isFalse (fun hh => by injection hh with h1 _; exact h (congrArg Prod.snd h1))
        | .isTrue hv =>
            match PyVal.decEqKVs xs ys with
            | .isTrue h2 => .isTrue (by rw [hk, hv, h2])
            | .isFalse h => .isFalse (fun hh => by injection hh with _ h2; exact h h2)
      else
        .isFalse (fun hh => by injection hh with h1 _; exact hk (congrArg Prod.fst h1))

end

instance : DecidableEq PyVal := PyVal.decEq

instance {ε α : Type} [DecidableEq ε] [DecidableEq α] : DecidableEq (Except ε α) :=
  fun a b =>
    match a, b with
    | .ok x, .ok y =>
        if h : x = y then .isTrue (h ▸ rfl)
        else .isFalse (fun hh => h (by injection hh))
    | .error x, .error y =>
        if h : x = y then .isTrue (h ▸ rfl)
        else .isFalse (fun hh => h (by injection hh))
    | .ok _, .error _ => .isFalse (fun h => Except.noConfusion h)
    | .error _, .ok _ => .isFalse (fun h => Except.noConfusion h)

/-- A Python dict with string keys, as an insertion-ordered association list. -/
abbrev Dict := List (String × PyVal)

/-- Python exceptions raised by the embedded code. -/
inductive PyErr where
  | typeError (msg : String)
  | keyError (msg : String)
  | attributeError (msg : String)
  | exception (msg : String)
deriving DecidableEq, Repr

/-- Python `str(e)` for a caught exception. -/
def PyErr.msg : PyErr → String
  | .typeError m => m
  | .keyError m => m
  | .attributeError m => m
  | .exception m => m

/-- Python truthiness. -/
def pyTruthy : PyVal → Bool
  | .none => false
  | .bool b => b
  | .int n => n != 0
  | .str s => s != ""
  | .list xs => !xs.isEmpty
  | .dict kvs => !kvs.isEmpty
  | .obj _ => true

/-- Python `a or b` (both operands already evaluated). -/
def pyOr (a b : PyVal) : PyVal := if pyTruthy a then a else b

/-- Dict lookup (first matching key). -/
def Dict.get? : Dict → String → Option PyVal
  | [], _ => Option.none
  | (k, v) :: rest, key => if k = key then some v else Dict.get? rest key

/-- Python `d.get(key, default)`. -/
def Dict.getD (d : Dict) (key : String) (default : PyVal) : PyVal :=
  match Dict.get? d key with
  | some v => v
  | Option.none => default

/-- Python `d.get(key)` (default `None`). -/
def Dict.get (d : Dict) (key : String) : PyVal := Dict.getD d key PyVal.none

/-- Python `d[key] = v`: replaces the first matching key in place, otherwise
appends at the end (CPython dicts preserve insertion order). -/
def Dict.set : Dict → String → PyVal → Dict
  | [], key, v => [(key, v)]
  | (k, w) :: rest, key, v =>
      if k = key then (key, v) :: rest else (k, w) :: Dict.set rest key v

/-- Python `x[key]` on an arbitrary value: `TypeError` when `x` is not a dict,
`KeyError` when the key is absent. -/
def PyVal.subscript (x : PyVal) (key : String) : Except PyErr PyVal :=
  match x with
  | .dict d =>
      match Dict.get? d key with
      | some v => .ok v
      | Option.none => .error (.keyError key)
  | .none => .error (.typeError "NoneType object is not subscriptable")
  | _ => .error (.typeError "object is not subscriptable")

/-- Python `x.get(key)` on an arbitrary value: `AttributeError` when `x` is not
a dict. -/
def PyVal.getM (x : PyVal) (key : String) : Except PyErr PyVal :=
  match x with
  | .dict d => .ok (Dict.get d key)
  | _ => .error (.attributeError "object has no attribute get")

/-- Python `x.get(key, default)` on an arbitrary value. -/
def PyVal.getDM (x : PyVal) (key : String) (default : PyVal) : Except PyErr PyVal :=
  match x with
  | .dict d => .ok (Dict.getD d key default)
  | _ => .error (.attributeError "object has no attribute get")

mutual

/-- Python `repr` (string escaping inside `repr` is abstracted away: it is never
inspected by the claims). -/
def pyRepr : PyVal → String
  | .none => "None"
  | .bool true => "True"
  | .bool false => "False"
  | .int n => toString n
  | .str s => "'" ++ s ++ "'"
  | .list xs => "[" ++ String.intercalate ", " (pyReprList xs) ++ "]"
  | .dict kvs => "\x7b" ++ String.intercalate ", " (pyReprKVs kvs) ++ "\x7d"
  | .obj tyname => "<" ++ tyname ++ " object>"

def pyReprList : List PyVal → List String
  | [] => []
  | x :: xs => pyRepr x :: pyReprList xs

def pyReprKVs : List (String × PyVal) → List String
  | [] => []
  | (k, v) :: kvs => ("'" ++ k ++ "': " ++ pyRepr v) :: pyReprKVs kvs

end

/-- Python `str(x)` (used by f-string interpolation). -/
def pyStr : PyVal → String
  | .str s => s
  | v => pyRepr v

/-- Python `d[key]` on a value that is statically a dict. -/
def Dict.subscript (d : Dict) (key : String) : Except PyErr PyVal :=
  match Dict.get? d key with
  | some v => .ok v
  | Option.none => .error (.keyError key)

/-- Python `"".join(parts)`. -/
def strConcat : List String → String
  | [] => ""
  | s :: rest => s ++ strConcat rest

/-- `sep.join(parts)` / the `", "`-separated rendering `json.dumps` uses. -/
def joinSep (sep : String) : List String → String
  | [] => ""
  | [s] => s
  | s :: rest => s ++ sep ++ joinSep sep rest

/-! ## `audit_log_filter_pipeline.py`: `_extract_text` -/

/-- The loop body of `_extract_text` over the elements of a list-shaped
`content`: a `str` part contributes itself; a `dict` part contributes
`part.get("text") or part.get("content")` when that value is a string;
everything else is skipped. -/
def extractParts : List PyVal → List String
  | [] => []
  | part :: rest =>
      match part with
      | .str s => s :: extractParts rest
      | .dict d =>
          match pyOr (Dict.get d "text") (Dict.get d "content") with
          | .str s => s :: extractParts rest
          | _ => extractParts rest
      | _ => extractParts rest

/-- `_extract_text` from `audit_log_filter_pipeline.py`. -/
def extract_text : PyVal → String
  | .str s => s
  | .list parts => strConcat (extractParts parts)
  | _ => ""

/-! ## `message_length_filter_pipeline.py`: `_compute_text_length` -/

/-- The accumulation loop of `_compute_text_length` over a list-shaped
`content`. -/
def computeParts : List PyVal → Nat
  | [] => 0
  | part :: rest =>
      (match part with
       | .str s => s.length
       | .dict d =>
           match pyOr (Dict.get d "text") (Dict.get d "content") with
           | .str s => s.length
           | _ => 0
       | _ => 0) + computeParts rest

/-- `_compute_text_length` from `message_length_filter_pipeline.py`
(Python `len` on `str` counts codepoints, as `String.length` does). -/
def compute_text_length : PyVal → Nat
  | .str s => s.length
  | .list parts => computeParts parts
  | _ => 0

/-! ## JSON serialization (`json.dumps`) for `_print_log` -/

/-- Lower-case hexadecimal digit, as `json.dumps` renders `\uXXXX` escapes. -/
def hexDigit : Nat → Char
  | 0 => '0' | 1 => '1' | 2 => '2' | 3 => '3' | 4 => '4'
  | 5 => '5' | 6 => '6' | 7 => '7' | 8 => '8' | 9 => '9'
  | 10 => 'a' | 11 => 'b' | 12 => 'c' | 13 => 'd' | 14 => 'e' | 15 => 'f'
  | _ => '0'

/-- JSON string escaping as `json.dumps` performs it.  (ASCII-escaping of
codepoints above 127 — `ensure_ascii=True` in the fallback dump versus
`ensure_ascii=False` in the main dump — is abstracted away: it only ever
removes characters from the output and no claim inspects non-ASCII text.) -/
def jsonEscapeChar (c : Char) : String :=
  if c = '"' then "\\\""
  else if c = '\\' then "\\\\"
  else if c = '\n' then "\\n"
  else if c = '\r' then "\\r"
  else if c = '\t' then "\\t"
  else if c.toNat < 32 then
    "\\u00" ++ String.singleton (hexDigit (c.toNat / 16)) ++
      String.singleton (hexDigit (c.toNat % 16))
  else String.singleton c

def jsonEscape (s : String) : String := strConcat (s.data.map jsonEscapeChar)

mutual

/-- `json.dumps` with default separators: fails with a `TypeError` exactly on
values containing a non-serializable object. -/
def jsonDumps : PyVal → Except PyErr String
  | .none => .ok "null"
  | .bool true => .ok "true"
  | .bool false => .ok "false"
  | .int n => .ok (toString n)
  | .str s => .ok ("\"" ++ jsonEscape s ++ "\"")
  | .list xs =>
      match jsonDumpsList xs with
      | .ok parts => .ok ("[" ++ joinSep ", " parts ++ "]")
      | .error e => .error e
  | .dict kvs =>
      match jsonDumpsKVs kvs with
      | .ok parts => .ok ("\x7b" ++ joinSep ", " parts ++ "\x7d")
      | .error e => .error e
  | .obj tyname =>
      .error (.typeError ("Object of type " ++ tyname ++ " is not JSON serializable"))

def jsonDumpsList : List PyVal → Except PyErr (List String)
  | [] => .ok []
  | x :: xs =>
      match jsonDumps x with
      | .error e => .error e
      | .ok s =>
          match jsonDumpsList xs with
          | .error e => .error e
          | .ok rest => .ok (s :: rest)

def jsonDumpsKVs : List (String × PyVal) → Except PyErr (List String)
  | [] => .ok []
  | (k, v) :: kvs =>
      match jsonDumps v with
      | .error e => .error e
      | .ok s =>
          match jsonDumpsKVs kvs with
          | .error e => .error e
          | .ok rest => .ok (("\"" ++ jsonEscape k ++ "\": " ++ s) :: rest)

end

/-- `Pipeline._print_log` of the audit filter: the single line written to the
sink.  On serialization failure it prints `json.dumps({"audit-log-error":
str(e)})`; that fallback dict contains only strings, so its serialization
cannot fail (the last branch is unreachable). -/
def print_log (payload : PyVal) : String :=
  match jsonDumps payload with
  | .ok line => line
  | .error e =>
      match jsonDumps (.dict [("audit-log-error", .str e.msg)]) with
      | .ok line => line
      | .error e2 => e2.msg

/-! ## Audit filter: valves, `_base_log`, `inlet`, `outlet` -/

/-- `Pipeline.Valves` of the audit filter (environment-sourced defaults). -/
structure AuditValves where
  pipelines : List String := ["*"]
  priority : Int := 0
  service_name : String := "open-webui"
  service_version : String := ""
  environment : String := ""
  include_content : Bool := true
deriving Repr, DecidableEq

/-- The `or` chain computing `trace_id` in `_base_log`: `body.get("chat_id")
or body.get("metadata", {}).get("chat_id") or body.get("session_id") or
(user.get("id") if user else None) or str(uuid.uuid4())`.  Python evaluates
the operands lazily, so a fault in a lower-precedence source (a non-dict
`metadata`, or a truthy non-dict `user`) is raised only when every higher
source is falsy.  `user` is the value `__user__["email"]` bound in
`_base_log`. -/
def baseTraceId (body : Dict) (user : PyVal) (fresh : String) : Except PyErr PyVal :=
  let t1 := Dict.get body "chat_id"
  if pyTruthy t1 then .ok t1 else
  match (Dict.getD body "metadata" (.dict [])).getM "chat_id" with
  | .error e => .error e
  | .ok t2 =>
      if pyTruthy t2 then .ok t2 else
      let t3 := Dict.get body "session_id"
      if pyTruthy t3 then .ok t3 else
      match (if pyTruthy user then user.getM "id" else .ok PyVal.none) with
      | .error e => .error e
      | .ok t4 => if pyTruthy t4 then .ok t4 else .ok (.str fresh)

/-- `Pipeline._base_log` of the audit filter.  `now` models
`datetime.now(timezone.utc).isoformat()`, `fresh` models `str(uuid.uuid4())`.
The source binds `user = __user__["email"]` (a `TypeError` when the identity
is `None`, a `KeyError` when the key is absent) and then uses that value both
as `subject-id`/`owner-id` and inside the trace-id chain. -/
def base_log (v : AuditValves) (now fresh : String) (body : Dict) (user0 : PyVal) :
    Except PyErr Dict :=
  match user0.subscript "email" with
  | .error e => .error e
  | .ok user =>
      match baseTraceId body user fresh with
      | .error e => .error e
      | .ok trace_id =>
          .ok [("log-type", PyVal.str "audit"), ("timestamp", PyVal.str now),
               ("trace-id", trace_id), ("service-name", PyVal.str v.service_name),
               ("service-version", PyVal.str v.service_version),
               ("environment", PyVal.str v.environment),
               ("audit-log-type", PyVal.str "access"), ("caller-ip", PyVal.str ""),
               ("subject-id", user), ("owner-id", user),
               ("resource-type", Dict.get body "model")]

/-- Modelled from the spec: `get_last_user_message` / `get_last_assistant_message`
are imported from `utils.pipelines.main`, part of this repository but not under
`src/`.  Spec section 4.2 (Message Selector): scan the messages from most recent to
oldest and return the first whose role matches, absence being a non-error;
section 4.4: the recorded text is the normalized content of that message. -/
def get_last_message_text (role : String) (messages : List PyVal) : PyVal :=
  match messages.reverse.find?
      (fun m => match m with
                | .dict d => decide (Dict.get d "role" = PyVal.str role)
                | _ => false) with
  | some (.dict d) => .str (extract_text (Dict.get d "content"))
  | _ => PyVal.none

/-- Modelled from the spec: see `get_last_message_text`.  Iterating a non-list
raises `TypeError`. -/
def get_last_user_message (messages : PyVal) : Except PyErr PyVal :=
  match messages with
  | .list ms => .ok (get_last_message_text "user" ms)
  | _ => .error (.typeError "object is not iterable")

/-- Modelled from the spec: see `get_last_message_text`. -/
def get_last_assistant_message (messages : PyVal) : Except PyErr PyVal :=
  match messages with
  | .list ms => .ok (get_last_message_text "assistant" ms)
  | _ => .error (.typeError "object is not iterable")

/-- Result of one audit-filter stage invocation: the (possibly mutated) body
and the audit payload handed to `_print_log` (`Option.none` when an internal
fault was absorbed before emission; the `Error:`/traceback diagnostics printed
in the `except` branch are operator logging, not audit emission, and are not
modelled). -/
structure StageOut where
  body : Dict
  audit : Option Dict
deriving Repr, DecidableEq

/-- `Pipeline.inlet` of the audit filter.  `fresh1` models the eagerly
evaluated `str(uuid.uuid4())` default of `metadata.get("chat_id", ...)`,
`fresh2` the one inside `_base_log`.  When `metadata` is not a dict,
`metadata.get` raises before any mutation and the `except` branch returns the
untouched body; any fault after the `body["metadata"]` assignment returns the
already-mutated body. -/
def Audit.inlet (v : AuditValves) (now fresh1 fresh2 : String) (body0 : Dict)
    (user : PyVal) : StageOut :=
  match Dict.getD body0 "metadata" (.dict []) with
  | .dict md =>
      let chat_id0 := Dict.getD md "chat_id" (.str fresh1)
      let chat_id :=
        if chat_id0 = PyVal.str "local" then
          PyVal.str ("temporary-session-" ++ pyStr (Dict.get md "session_id"))
        else chat_id0
      let md1 := Dict.set md "chat_id" chat_id
      let body1 := Dict.set body0 "metadata" (.dict md1)
      match base_log v now fresh2 body1 user with
      | .error _ => ⟨body1, Option.none⟩
      | .ok base =>
          let base1 := Dict.set base "event-type" (.str "user_input")
          match (if v.include_content then
                   match Dict.subscript body1 "messages" with
                   | .ok msgs => get_last_user_message msgs
                   | .error e => .error e
                 else .ok (PyVal.str "")) with
          | .error _ => ⟨body1, Option.none⟩
          | .ok user_message => ⟨body1, some (Dict.set base1 "additional-data" user_message)⟩
  | _ => ⟨body0, Option.none⟩

/-- `Pipeline.outlet` of the audit filter.  It resolves `chat_id` from the
body's top level (not from metadata) and reads `session_id` from the body's
top level; a non-dict `metadata` raises at `metadata["chat_id"] = ...` before
any mutation of the body. -/
def Audit.outlet (v : AuditValves) (now fresh : String) (body0 : Dict)
    (user : PyVal) : StageOut :=
  match Dict.getD body0 "metadata" (.dict []) with
  | .dict md =>
      let chat_id0 := Dict.get body0 "chat_id"
      let chat_id :=
        if chat_id0 = PyVal.str "local" then
          PyVal.str ("temporary-session-" ++ pyStr (Dict.get body0 "session_id"))
        else chat_id0
      let md1 := Dict.set md "chat_id" chat_id
      let body1 := Dict.set body0 "metadata" (.dict md1)
      match base_log v now fresh body1 user with
      | .error _ => ⟨body1, Option.none⟩
      | .ok base =>
          let base1 := Dict.set base "event-type" (.str "llm_response")
          match (if v.include_content then
                   match Dict.subscript body1 "messages" with
                   | .ok msgs => get_last_assistant_message msgs
                   | .error e => .error e
                 else .ok (PyVal.str "")) with
          | .error _ => ⟨body1, Option.none⟩
          | .ok assistant_message =>
              ⟨body1, some (Dict.set base1 "additional-data" assistant_message)⟩
  | _ => ⟨body0, Option.none⟩

/-! ## Message-length filter: valves, selector, output cap, `inlet` -/

/-- `Pipeline.Valves` of the message-length filter. -/
structure MLValves where
  pipelines : List String := ["*"]
  priority : Int := 0
  target_user_roles : List String := ["user"]
  max_user_message_chars : Option Int := some 10000
  max_assistant_response_tokens : Option Int := Option.none
deriving Repr, DecidableEq

/-- Python `x in roles` for a `List[str]` of roles. -/
def pyInStrList (x : PyVal) (roles : List String) : Bool :=
  match x with
  | .str s => roles.contains s
  | _ => false

/-- The loop of `_get_last_message_by_roles` over the already-reversed message
list; `message.get("role")` raises `AttributeError` on a non-dict element. -/
def rolesFind : List PyVal → List String → Except PyErr (Option PyVal)
  | [], _ => .ok Option.none
  | m :: rest, roles =>
      match m.getM "role" with
      | .error e => .error e
      | .ok r => if pyInStrList r roles then .ok (some m) else rolesFind rest roles

/-- `_get_last_message_by_roles` from `message_length_filter_pipeline.py`
(`reversed` over a non-sequence raises `TypeError`). -/
def get_last_message_by_roles (messages : PyVal) (roles : List String) :
    Except PyErr (Option PyVal) :=
  match messages with
  | .list ms => rolesFind ms.reverse roles
  | _ => .error (.typeError "argument to reversed is not a sequence")

/-- Python `min(a, b)` as it occurs in `_apply_output_token_cap`: one operand
is always the configured integer cap; a non-integer pre-existing
`options.max_tokens` raises `TypeError` (Python `bool`, an `int` subclass,
is kept distinct here — no claim exercises a boolean token cap). -/
def pyMinInt : PyVal → PyVal → Except PyErr PyVal
  | .int a, .int b => .ok (.int (min a b))
  | _, _ => .error (.typeError "unsupported operand types for min")

/-- `Pipeline._apply_output_token_cap` (the in-place mutation of `body` is
returned explicitly). -/
def apply_output_token_cap (desired : Option Int) (body : Dict) :
    Except PyErr Dict :=
  match desired with
  | Option.none => .ok body
  | some d =>
      let options :=
        match Dict.get body "options" with
        | .dict o => o
        | _ => ([] : Dict)
      match pyMinInt (Dict.getD options "max_tokens" (.int d)) (.int d) with
      | .error e => .error e
      | .ok m => .ok (Dict.set body "options" (.dict (Dict.set options "max_tokens" m)))

/-- `Pipeline.inlet` of the message-length filter.  `raise Exception(...)`
propagates (there is no `try` in this stage); Python's
`if max_chars and max_chars > 0` makes `None` and non-positive limits skip the
check, and a falsy (empty-dict) selected message also skips it. -/
def ML.inlet (v : MLValves) (body : Dict) : Except PyErr Dict :=
  let check : Except PyErr Unit :=
    match v.max_user_message_chars with
    | some mc =>
        if 0 < mc then
          match get_last_message_by_roles (Dict.getD body "messages" (.list []))
              v.target_user_roles with
          | .error e => .error e
          | .ok Option.none => .ok ()
          | .ok (some m) =>
              if pyTruthy m then
                match m.getM "content" with
                | .error e => .error e
                | .ok content =>
                    let length := compute_text_length content
                    if (length : Int) > mc then
                      .error (.exception
                        s!"Input message exceeds limit: {length} > {mc} characters.")
                    else .ok ()
              else .ok ()
        else .ok ()
    | Option.none => .ok ()
  match check with
  | .error e => .error e
  | .ok () => apply_output_token_cap v.max_assistant_response_tokens body

/-! ## Definitions used only in theorem statements -/

/-- `s` reaches the sink as a single line (`print` itself appends the one
terminating newline, so "writes exactly one line" means the payload string
contains no newline character). -/
def noNL (s : String) : Prop := '\n' ∉ s.data

instance (s : String) : Decidable (noNL s) :=
  inferInstanceAs (Decidable ('\n' ∉ s.data))

/-- The per-element contribution of the Content Normalizer as the spec words
it ("a structured element contributes the value of its first PRESENT
recognized text-bearing field"), for refinement comparison with
`extract_text`: presence of the `"text"` key decides, even when its value is
empty or not a string. -/
def specContrib (part : PyVal) : String :=
  match part with
  | .str s => s
  | .dict d =>
      match Dict.get? d "text" with
      | some (.str s) => s
      | some _ => ""
      | Option.none =>
          match Dict.get? d "content" with
          | some (.str s) => s
          | _ => ""
  | _ => ""

/-- The Content Normalizer as the spec words it, for refinement comparison
with `extract_text`. -/
def extract_text_spec : PyVal → String
  | .str s => s
  | .list parts => strConcat (parts.map specContrib)
  | _ => ""

/-- The per-element contribution `_extract_text` actually implements: the
`"text"` value when truthy, else the `"content"` value, and only a string
contributes. -/
def extractContrib (part : PyVal) : String :=
  match part with
  | .str s => s
  | .dict d =>
      match pyOr (Dict.get d "text") (Dict.get d "content") with
      | .str s => s
      | _ => ""
  | _ => ""

/-! ## Dictionary lemmas -/

theorem Dict.get?_set_self (d : Dict) (k : String) (v : PyVal) :
    Dict.get? (Dict.set d k v) k = some v := by
  induction d with
  | nil => simp [Dict.set, Dict.get?]
  | cons kv rest ih =>
      obtain ⟨k', v'⟩ := kv
      by_cases h : k' = k <;> simp [Dict.set, Dict.get?, h, ih]

theorem Dict.get?_set_ne (d : Dict) {k k' : String} (h : k' ≠ k) (v : PyVal) :
    Dict.get? (Dict.set d k v) k' = Dict.get? d k' := by
  induction d with
  | nil => simp [Dict.set, Dict.get?, Ne.symm h]
  | cons kv rest ih =>
      obtain ⟨k0, v0⟩ := kv
      by_cases h0 : k0 = k
      · subst h0
        simp [Dict.set, Dict.get?, Ne.symm h]
      · simp [Dict.set, Dict.get?, h0, ih]

theorem Dict.set_self {d : Dict} {k : String} {v : PyVal}
    (h : Dict.get? d k = some v) : Dict.set d k v = d := by
  induction d with
  | nil => simp [Dict.get?] at h
  | cons kv rest ih =>
      obtain ⟨k0, v0⟩ := kv
      by_cases h0 : k0 = k
      · subst h0
        simp [Dict.get?] at h
        simp [Dict.set, h]
      · simp [Dict.get?, h0] at h
        simp [Dict.set, h0, ih h]

theorem Dict.get_set_self (d : Dict) (k : String) (v : PyVal) :
    Dict.get (Dict.set d k v) k = v := by
  simp [Dict.get, Dict.getD, Dict.get?_set_self]

/-! ## Single-line output of the serializer -/

theorem empty_str_append (s : String) : "" ++ s = s := rfl

theorem noNL_append {a b : String} (ha : noNL a) (hb : noNL b) : noNL (a ++ b) := by
  unfold noNL at *
  rw [String.data_append]
  intro hmem
  rcases List.mem_append.mp hmem with h | h
  · exact ha h
  · exact hb h

theorem noNL_strConcat {xs : List String} (h : ∀ s ∈ xs, noNL s) :
    noNL (strConcat xs) := by
  induction xs with
  | nil => intro hmem; exact absurd hmem (by decide)
  | cons s rest ih =>
      exact noNL_append (h s (by simp)) (ih fun t ht => h t (by simp [ht]))

theorem noNL_joinSep {sep : String} (hsep : noNL sep) {xs : List String}
    (h : ∀ s ∈ xs, noNL s) : noNL (joinSep sep xs) := by
  induction xs with
  | nil => intro hmem; exact List.not_mem_nil _ hmem
  | cons s rest ih =>
      cases rest with
      | nil => exact h s (by simp)
      | cons t rest0 =>
          exact noNL_append (noNL_append (h s (by simp)) hsep)
            (ih fun u hu => h u (by simp [hu]))

theorem noNL_singleton {c : Char} (h : c ≠ '\n') : noNL (String.singleton c) := by
  intro hmem
  exact h (List.mem_singleton.mp hmem).symm

theorem digitChar_ne_nl (d : Nat) : Nat.digitChar d ≠ '\n' := by
  rcases Nat.lt_or_ge d 16 with h | h
  · interval_cases d <;> decide
  · have hstar : Nat.digitChar d = '*' := by
      unfold Nat.digitChar
      iterate 16 rw [if_neg (by omega)]
    rw [hstar]; decide

theorem toDigitsCore_noNL (b : Nat) (fuel : Nat) :
    ∀ (n : Nat) (acc : List Char), '\n' ∉ acc →
      '\n' ∉ Nat.toDigitsCore b fuel n acc := by
  induction fuel with
  | zero => intro n acc h; exact h
  | succ fuel ih =>
      intro n acc h
      unfold Nat.toDigitsCore
      dsimp only
      split
      · intro hmem
        rcases List.mem_cons.mp hmem with hc | hc
        · exact digitChar_ne_nl _ hc.symm
        · exact h hc
      · refine ih _ _ ?_
        intro hmem
        rcases List.mem_cons.mp hmem with hc | hc
        · exact digitChar_ne_nl _ hc.symm
        · exact h hc

theorem natRepr_noNL (n : Nat) : noNL (Nat.repr n) :=
  toDigitsCore_noNL 10 (n + 1) n [] (by decide)

theorem intRepr_noNL (n : Int) : noNL (Int.repr n) := by
  cases n with
  | ofNat m => exact natRepr_noNL m
  | negSucc m => exact noNL_append (by decide) (natRepr_noNL _)

theorem hexDigit_ne_nl (m : Nat) : hexDigit m ≠ '\n' := by
  match m with
  | 0 | 1 | 2 | 3 | 4 | 5 | 6 | 7 | 8 | 9 | 10 | 11 | 12 | 13 | 14 | 15 => decide
  | n + 16 => exact (by decide : ('0' : Char) ≠ '\n')

theorem jsonEscapeChar_noNL (c : Char) : noNL (jsonEscapeChar c) := by
  unfold jsonEscapeChar
  split_ifs with h1 h2 h3 h4 h5 h6
  · decide
  · decide
  · decide
  · decide
  · decide
  · exact noNL_append
      (noNL_append (by decide) (noNL_singleton (hexDigit_ne_nl _)))
      (noNL_singleton (hexDigit_ne_nl _))
  · exact noNL_singleton h3

theorem jsonEscape_noNL (s : String) : noNL (jsonEscape s) :=
  noNL_strConcat (by
    intro t ht
    rcases List.mem_map.mp ht with ⟨c, _, rfl⟩
    exact jsonEscapeChar_noNL c)

theorem jsonDumps_noNL (x : PyVal) : ∀ s, jsonDumps x = .ok s → noNL s := by
  refine jsonDumps.induct
    (fun x => ∀ s, jsonDumps x = .ok s → noNL s)
    (fun kvs => ∀ l, jsonDumpsKVs kvs = .ok l → ∀ s ∈ l, noNL s)
    (fun xs => ∀ l, jsonDumpsList xs = .ok l → ∀ s ∈ l, noNL s)
    ?_ ?_ ?_ ?_ ?_ ?_ ?_ ?_ ?_ ?_ ?_ ?_ ?_ ?_ ?_ ?_ ?_ ?_ x
  · intro s h; injection h with h; subst h; decide
  · intro s h; injection h with h; subst h; decide
  · intro s h; injection h with h; subst h; decide
  · intro n s h; injection h with h; subst h; exact intRepr_noNL n
  · intro s0 s h; injection h with h; subst h
    exact noNL_append (noNL_append (by decide) (jsonEscape_noNL s0)) (by decide)
  · intro xs parts hok ih s h
    simp only [jsonDumps, hok] at h
    injection h with h; subst h
    exact noNL_append (noNL_append (by decide) (noNL_joinSep (by decide) (ih parts hok)))
      (by decide)
  · intro xs e herr ih s h
    simp only [jsonDumps, herr] at h
    exact absurd h (by simp)
  · intro kvs parts hok ih s h
    simp only [jsonDumps, hok] at h
    injection h with h; subst h
    exact noNL_append (noNL_append (by decide) (noNL_joinSep (by decide) (ih parts hok)))
      (by decide)
  · intro kvs e herr ih s h
    simp only [jsonDumps, herr] at h
    exact absurd h (by simp)
  · intro tyname s h
    simp only [jsonDumps] at h
    exact absurd h (by simp)
  · intro l h
    injection h with h; subst h
    intro s hs
    exact absurd hs (List.not_mem_nil s)
  · intro y ys e herr ihy l h
    simp only [jsonDumpsList, herr] at h
    exact absurd h (by simp)
  · intro y ys s hok e herr ihy ihys l h
    simp only [jsonDumpsList, hok, herr] at h
    exact absurd h (by simp)
  · intro y ys s hok rest hrest ihy ihys l h
    simp only [jsonDumpsList, hok, hrest] at h
    injection h with h; subst h
    intro t ht
    rcases List.mem_cons.mp ht with rfl | ht
    · exact ihy t hok
    · exact ihys rest hrest t ht
  · intro l h
    injection h with h; subst h
    intro s hs
    exact absurd hs (List.not_mem_nil s)
  · intro k y ys e herr ihy l h
    simp only [jsonDumpsKVs, herr] at h
    exact absurd h (by simp)
  · intro k y ys s hok e herr ihy ihys l h
    simp only [jsonDumpsKVs, hok, herr] at h
    exact absurd h (by simp)
  · intro k y ys s hok rest hrest ihy ihys l h
    simp only [jsonDumpsKVs, hok, hrest] at h
    injection h with h; subst h
    intro t ht
    rcases List.mem_cons.mp ht with rfl | ht
    · exact noNL_append
        (noNL_append (noNL_append (by decide) (jsonEscape_noNL k)) (by decide))
        (ihy s hok)
    · exact ihys rest hrest t ht

theorem print_log_noNL (payload : PyVal) : noNL (print_log payload) := by
  unfold print_log
  cases h : jsonDumps payload with
  | ok line => exact jsonDumps_noNL payload line h
  | error e =>
      dsimp only
      cases h2 : jsonDumps (.dict [("audit-log-error", .str e.msg)]) with
      | ok line => exact jsonDumps_noNL _ line h2
      | error e2 => simp [jsonDumps, jsonDumpsKVs] at h2

/-- **C8.** For every audit event payload — including one containing a
non-serializable value — `_print_log` writes exactly one line (the string it
prints contains no newline; `print` appends the single terminator) and never
raises: on serialization failure the line written is precisely the
serialization of the minimal fallback record carrying only the error
description under the `audit-log-error` key. -/
theorem print_log_one_line_and_fallback (payload : PyVal) :
    noNL (print_log payload) ∧
    (∀ e, jsonDumps payload = .error e →
      jsonDumps (.dict [("audit-log-error", .str e.msg)]) = .ok (print_log payload)) := by
  refine ⟨print_log_noNL payload, ?_⟩
  intro e he
  unfold print_log
  rw [he]
  dsimp only
  cases h2 : jsonDumps (.dict [("audit-log-error", .str e.msg)]) with
  | ok line => rfl
  | error e2 => simp [jsonDumps, jsonDumpsKVs] at h2

/-- **C8 (witness).** A payload containing a Python `set` (not JSON
serializable) still yields a single-line emission, and that line is the
serialized fallback record. -/
theorem print_log_one_line_and_fallback_witness :
    noNL (print_log (.dict [("x", .obj "set")])) ∧
    jsonDumps (.dict [("audit-log-error",
        .str (PyErr.typeError "Object of type set is not JSON serializable").msg)]) =
      .ok (print_log (.dict [("x", .obj "set")])) := by
  obtain ⟨h1, h2⟩ := print_log_one_line_and_fallback (.dict [("x", .obj "set")])
  exact ⟨h1, h2 _ rfl⟩

/-! ## C7: the Content Normalizer -/

theorem extractParts_eq_map (parts : List PyVal) :
    strConcat (extractParts parts) = strConcat (parts.map extractContrib) := by
  induction parts with
  | nil => rfl
  | cons p rest ih =>
      cases p with
      | str s => simp [extractParts, extractContrib, strConcat, ih]
      | dict d =>
          cases h : pyOr (Dict.get d "text") (Dict.get d "content") <;>
            simp [extractParts, extractContrib, strConcat, h, ih, empty_str_append]
      | none => simpa [extractParts, extractContrib, strConcat, empty_str_append] using ih
      | bool b => simpa [extractParts, extractContrib, strConcat, empty_str_append] using ih
      | int n => simpa [extractParts, extractContrib, strConcat, empty_str_append] using ih
      | list xs => simpa [extractParts, extractContrib, strConcat, empty_str_append] using ih
      | obj t => simpa [extractParts, extractContrib, strConcat, empty_str_append] using ih

/-- **C7 (counterexample).** The claim says a structured element contributes
the value of its first PRESENT recognized text-bearing field.  On the element
`{"text": "", "content": "abc"}` that rule yields `""` (the `text` field is
present), but `_extract_text` yields `"abc"`: the code takes the first TRUTHY
field (`part.get("text") or part.get("content")`), not the first present one. -/
theorem extract_text_first_present_cex :
    extract_text (.list [.dict [("text", .str ""), ("content", .str "abc")]]) = "abc" ∧
    extract_text_spec (.list [.dict [("text", .str ""), ("content", .str "abc")]]) = "" ∧
    ("abc" : String) ≠ "" := by
  refine ⟨by decide, by decide, by decide⟩

/-- **C7 (amended).** Normalization returns the in-order concatenation in
which a bare string element contributes itself and a structured element
contributes its `"text"` value when truthy, otherwise its `"content"` value,
and only when the chosen value is a string (any other element contributes the
empty string); a plain-string content is returned unchanged, any other shape
yields the empty string, and no error is ever raised (the function is total). -/
theorem extract_text_normalization (parts : List PyVal) (s : String) :
    extract_text (.str s) = s ∧
    extract_text (.list parts) = strConcat (parts.map extractContrib) ∧
    extract_text PyVal.none = "" ∧
    (∀ b, extract_text (.bool b) = "") ∧
    (∀ n, extract_text (.int n) = "") ∧
    (∀ d, extract_text (.dict d) = "") ∧
    (∀ t, extract_text (.obj t) = "") :=
  ⟨rfl, extractParts_eq_map parts, rfl, fun _ => rfl, fun _ => rfl, fun _ => rfl,
    fun _ => rfl⟩

/-! ## C5: the output token cap -/

/-- **C5.** If `max_assistant_response_tokens` is unset the output-cap step
returns the body unchanged; otherwise it sets `body.options.max_tokens` to the
minimum of the pre-existing requested cap (when present) and the configured
cap `d`, so an existing tighter cap is never raised; when no integer cap
pre-exists (key absent, or `options` missing/non-dict) the configured cap is
installed as is. -/
theorem output_cap_min (d : Int) (body : Dict) :
    apply_output_token_cap Option.none body = .ok body ∧
    (∀ opts m, Dict.get body "options" = .dict opts →
      Dict.get? opts "max_tokens" = some (.int m) →
      apply_output_token_cap (some d) body =
        .ok (Dict.set body "options"
          (.dict (Dict.set opts "max_tokens" (.int (min m d)))))) ∧
    (∀ opts, Dict.get body "options" = .dict opts →
      Dict.get? opts "max_tokens" = Option.none →
      apply_output_token_cap (some d) body =
        .ok (Dict.set body "options"
          (.dict (Dict.set opts "max_tokens" (.int d))))) ∧
    ((∀ opts, Dict.get body "options" ≠ .dict opts) →
      apply_output_token_cap (some d) body =
        .ok (Dict.set body "options" (.dict [("max_tokens", .int d)]))) := by
  refine ⟨rfl, ?_, ?_, ?_⟩
  · intro opts m h1 h2
    simp [apply_output_token_cap, h1, Dict.getD, h2, pyMinInt]
  · intro opts h1 h2
    simp [apply_output_token_cap, h1, Dict.getD, h2, pyMinInt]
  · intro hno
    cases h : Dict.get body "options" with
    | dict o => exact absurd h (hno o)
    | none => simp [apply_output_token_cap, h, Dict.getD, Dict.get?, pyMinInt, Dict.set]
    | bool b => simp [apply_output_token_cap, h, Dict.getD, Dict.get?, pyMinInt, Dict.set]
    | int n => simp [apply_output_token_cap, h, Dict.getD, Dict.get?, pyMinInt, Dict.set]
    | str s => simp [apply_output_token_cap, h, Dict.getD, Dict.get?, pyMinInt, Dict.set]
    | list xs => simp [apply_output_token_cap, h, Dict.getD, Dict.get?, pyMinInt, Dict.set]
    | obj t => simp [apply_output_token_cap, h, Dict.getD, Dict.get?, pyMinInt, Dict.set]

/-- **C5 (witness).** Configured cap `100` with a pre-existing
`options.max_tokens = 50` keeps `50`; with no pre-existing cap the result is
`100`; with the valve unset the body is unchanged. -/
theorem output_cap_min_witness :
    apply_output_token_cap (some 100)
        [("options", PyVal.dict [("max_tokens", PyVal.int 50)])] =
      .ok [("options", PyVal.dict [("max_tokens", PyVal.int 50)])] ∧
    apply_output_token_cap (some 100) [] =
      .ok [("options", PyVal.dict [("max_tokens", PyVal.int 100)])] ∧
    apply_output_token_cap Option.none [("x", PyVal.int 1)] =
      .ok [("x", PyVal.int 1)] := by
  refine ⟨?_, ?_, (output_cap_min 100 [("x", PyVal.int 1)]).1⟩
  · have h := (output_cap_min 100
      [("options", PyVal.dict [("max_tokens", PyVal.int 50)])]).2.1
      [("max_tokens", PyVal.int 50)] 50 (by decide) (by decide)
    exact h.trans (congrArg Except.ok (by decide))
  · have h := (output_cap_min 100 ([] : Dict)).2.2.2
      (fun _ hh => PyVal.noConfusion hh)
    exact h.trans (congrArg Except.ok (by decide))

/-! ## C4: the input length check -/

/-- **C4.** With `max_user_message_chars = 10`: when the last message among the
target roles has normalized length 11, `inlet` raises the rejection whose
reason contains both `11` (actual) and `10` (limit); when that length is
exactly 10 the inlet passes (its result is exactly the output-cap step); and
with no limit, a non-positive limit, or no target-role message, the check
passes trivially.  (`hm` records that the selected message dict is truthy;
the selector can only return a message carrying a matching `role` key, so a
selected message is never the empty dict.) -/
theorem ml_inlet_length_check
    (roles : List String) (body : Dict) (m : Dict) (cap : Option Int)
    (msgs : List PyVal)
    (hmsgs : Dict.getD body "messages" (.list []) = .list msgs)
    (hsel : get_last_message_by_roles (.list msgs) roles = .ok (some (.dict m)))
    (hm : pyTruthy (.dict m) = true) :
    (compute_text_length (Dict.get m "content") = 11 →
      ML.inlet ⟨["*"], 0, roles, some 10, cap⟩ body =
        .error (.exception "Input message exceeds limit: 11 > 10 characters.") ∧
      List.IsInfix "11".data "Input message exceeds limit: 11 > 10 characters.".data ∧
      List.IsInfix "10".data "Input message exceeds limit: 11 > 10 characters.".data) ∧
    (compute_text_length (Dict.get m "content") = 10 →
      ML.inlet ⟨["*"], 0, roles, some 10, cap⟩ body =
        apply_output_token_cap cap body) ∧
    (∀ v : MLValves, ∀ b : Dict,
      (v.max_user_message_chars = Option.none ∨
        ∃ n, v.max_user_message_chars = some n ∧ n ≤ 0) →
      ML.inlet v b = apply_output_token_cap v.max_assistant_response_tokens b) ∧
    (∀ v : MLValves, ∀ b : Dict,
      get_last_message_by_roles (Dict.getD b "messages" (.list []))
          v.target_user_roles = .ok Option.none →
      ML.inlet v b = apply_output_token_cap v.max_assistant_response_tokens b) := by
  refine ⟨?_, ?_, ?_, ?_⟩
  · intro h11
    refine ⟨?_, by decide, by decide⟩
    simp only [ML.inlet, hmsgs, hsel, hm, PyVal.getM, h11]
    norm_num
    decide
  · intro h10
    simp only [ML.inlet, hmsgs, hsel, hm, PyVal.getM, h10]
    norm_num
  · intro v b h
    rcases h with h | ⟨n, hn, hn0⟩
    · simp only [ML.inlet, h]
    · simp only [ML.inlet, hn]
      rw [if_neg (by omega)]
  · intro v b hsel0
    cases hvc : v.max_user_message_chars with
    | none => simp only [ML.inlet, hvc]
    | some mc =>
        by_cases h0 : 0 < mc
        · simp only [ML.inlet, hvc, hsel0, if_pos h0]
        · simp only [ML.inlet, hvc, if_neg h0]

/-- **C4 (witness).** Limit 10 and an 11-character user message reject with
the reason naming 11 and 10; a 10-character message passes; and with no limit
configured the inlet is the output-cap step alone. -/
theorem ml_inlet_length_check_witness :
    ML.inlet ⟨["*"], 0, ["user"], some 10, Option.none⟩
        [("messages", PyVal.list [PyVal.dict
          [("role", PyVal.str "user"), ("content", PyVal.str "12345678901")]])] =
      .error (.exception "Input message exceeds limit: 11 > 10 characters.") ∧
    ML.inlet ⟨["*"], 0, ["user"], some 10, Option.none⟩
        [("messages", PyVal.list [PyVal.dict
          [("role", PyVal.str "user"), ("content", PyVal.str "1234567890")]])] =
      .ok [("messages", PyVal.list [PyVal.dict
          [("role", PyVal.str "user"), ("content", PyVal.str "1234567890")]])] ∧
    ML.inlet ⟨["*"], 0, ["user"], Option.none, Option.none⟩ [] = .ok [] := by
  have H := ml_inlet_length_check ["user"]
    [("messages", PyVal.list [PyVal.dict
      [("role", PyVal.str "user"), ("content", PyVal.str "12345678901")]])]
    [("role", PyVal.str "user"), ("content", PyVal.str "12345678901")] Option.none
    [PyVal.dict [("role", PyVal.str "user"), ("content", PyVal.str "12345678901")]]
    (by decide) (by decide) (by decide)
  have H2 := ml_inlet_length_check ["user"]
    [("messages", PyVal.list [PyVal.dict
      [("role", PyVal.str "user"), ("content", PyVal.str "1234567890")]])]
    [("role", PyVal.str "user"), ("content", PyVal.str "1234567890")] Option.none
    [PyVal.dict [("role", PyVal.str "user"), ("content", PyVal.str "1234567890")]]
    (by decide) (by decide) (by decide)
  exact ⟨(H.1 (by decide)).1, (H2.2.1 (by decide)).trans (by decide),
    (H.2.2.1 ⟨["*"], 0, ["user"], Option.none, Option.none⟩ [] (Or.inl rfl)).trans
      (by decide)⟩

/-! ## C2: the caller-ip field -/

/-- **C2 (counterexample).** With an identity carrying an IP (`"9.9.9.9"`)
and a body carrying an IP (`"8.8.8.8"`), the emitted `caller-ip` is still the
empty string: `_base_log` hard-codes `"caller-ip": ""` and never reads an IP
from either source, contradicting the claimed identity-then-body precedence. -/
theorem caller_ip_cex :
    (base_log ⟨["*"], 0, "open-webui", "", "", true⟩ "t" "f"
        [("ip", PyVal.str "8.8.8.8")]
        (PyVal.dict [("ip", PyVal.str "9.9.9.9"),
          ("email", PyVal.dict [])])).map (fun ev => Dict.get ev "caller-ip") =
      .ok (PyVal.str "") ∧
    PyVal.str "" ≠ PyVal.str "9.9.9.9" ∧ PyVal.str "" ≠ PyVal.str "8.8.8.8" := by
  exact ⟨by decide, by decide, by decide⟩

/-- **C2 (amended).** The `caller-ip` field of every emitted audit event
equals the empty string, regardless of identity-provided or body-provided
addresses. -/
theorem caller_ip_always_empty (v : AuditValves) (now fresh : String)
    (body : Dict) (user0 : PyVal) (ev : Dict)
    (h : base_log v now fresh body user0 = .ok ev) :
    Dict.get ev "caller-ip" = PyVal.str "" := by
  unfold base_log at h
  cases hu : user0.subscript "email" with
  | error e => simp only [hu] at h; exact Except.noConfusion h
  | ok user =>
      simp only [hu] at h
      cases ht : baseTraceId body user fresh with
      | error e => simp only [ht] at h; exact Except.noConfusion h
      | ok t =>
          simp only [ht] at h
          injection h with h
          subst h
          rfl

/-- **C2 (amended, witness).** -/
theorem caller_ip_always_empty_witness :
    Dict.get [("log-type", PyVal.str "audit"), ("timestamp", PyVal.str "t"),
      ("trace-id", PyVal.str "f"), ("service-name", PyVal.str "open-webui"),
      ("service-version", PyVal.str ""), ("environment", PyVal.str ""),
      ("audit-log-type", PyVal.str "access"), ("caller-ip", PyVal.str ""),
      ("subject-id", PyVal.dict []), ("owner-id", PyVal.dict []),
      ("resource-type", PyVal.none)] "caller-ip" = PyVal.str "" :=
  caller_ip_always_empty ⟨["*"], 0, "open-webui", "", "", true⟩ "t" "f" []
    (PyVal.dict [("email", PyVal.dict [])]) _ (by decide)

/-! ## C1: the trace-id precedence chain -/

/-- **C1 (counterexample).** For an identity
`{"id": "u1", "email": {"id": "e1"}}` and a body with no chat or session
identifiers, the emitted trace-id is `"e1"` — the `id` field of the
identity's `email` entry — not the identity's user id `"u1"` the claim
requires (and not a fresh identifier either): `_base_log` binds
`user = __user__["email"]` and falls back to `user.get("id")`. -/
theorem trace_id_email_cex :
    (base_log ⟨["*"], 0, "open-webui", "", "", true⟩ "t" "f" []
        (PyVal.dict [("id", PyVal.str "u1"),
          ("email", PyVal.dict [("id", PyVal.str "e1")])])).map
        (fun ev => Dict.get ev "trace-id") = .ok (PyVal.str "e1") ∧
    PyVal.str "e1" ≠ PyVal.str "u1" ∧ PyVal.str "e1" ≠ PyVal.str "f" := by
  exact ⟨by decide, by decide, by decide⟩

/-- **C1 (amended).** The trace-id recorded in an audit event is computed by
the precedence chain `chat_id`, then `metadata.chat_id`, then `session_id`,
then the `id` field of the identity's `email` entry (the value the source
binds as `user = __user__["email"]` — not the identity's own user id), then
the freshly generated identifier; the first truthy (non-empty) source wins,
and the fresh identifier is used only when all higher sources are empty. -/
theorem trace_id_precedence (v : AuditValves) (now fresh : String)
    (body md email : Dict) (u : Dict)
    (hmd : Dict.getD body "metadata" (.dict []) = .dict md)
    (hemail : Dict.get? u "email" = some (.dict email)) :
    (base_log v now fresh body (.dict u)).map (fun ev => Dict.get ev "trace-id") =
      .ok (pyOr (Dict.get body "chat_id")
        (pyOr (Dict.get md "chat_id")
          (pyOr (Dict.get body "session_id")
            (pyOr (if pyTruthy (PyVal.dict email) then Dict.get email "id"
                   else PyVal.none)
              (.str fresh))))) := by
  unfold base_log baseTraceId
  simp only [PyVal.subscript, hemail, hmd, PyVal.getM, pyOr]
  split_ifs <;>
    simp_all [Except.map, Dict.get, Dict.getD, Dict.get?_set_self, Dict.get?]

/-- **C1 (amended, witness).** -/
theorem trace_id_precedence_witness :
    (base_log ⟨["*"], 0, "open-webui", "", "", true⟩ "t" "f"
        [("chat_id", PyVal.str "c")]
        (PyVal.dict [("email", PyVal.dict [("id", PyVal.str "e1")])])).map
        (fun ev => Dict.get ev "trace-id") =
      .ok (pyOr (Dict.get [("chat_id", PyVal.str "c")] "chat_id")
        (pyOr (Dict.get [] "chat_id")
          (pyOr (Dict.get [("chat_id", PyVal.str "c")] "session_id")
            (pyOr (if pyTruthy (PyVal.dict [("id", PyVal.str "e1")])
                   then Dict.get [("id", PyVal.str "e1")] "id"
                   else PyVal.none)
              (.str "f"))))) :=
  trace_id_precedence ⟨["*"], 0, "open-webui", "", "", true⟩ "t" "f"
    [("chat_id", PyVal.str "c")] [] [("id", PyVal.str "e1")]
    [("email", PyVal.dict [("id", PyVal.str "e1")])] (by decide) (by decide)

/-! ## C3: the temporary-session rewrite -/

/-- **C3 (counterexample).** On the outbound leg of a `chat_id == "local"`,
`session_id == "abc"` exchange, `outlet` derives `"temporary-session-abc"`
and stores it into `metadata.chat_id`, but the audit event it emits carries
trace-id `"local"`, not the derived identifier: `_base_log` prefers the
body's top-level `chat_id` over the rewritten `metadata.chat_id`. -/
theorem outlet_trace_cex :
    Audit.outlet ⟨["*"], 0, "open-webui", "", "", true⟩ "t" "f"
        [("chat_id", PyVal.str "local"), ("session_id", PyVal.str "abc"),
         ("messages", PyVal.list [])]
        (PyVal.dict [("email", PyVal.dict [])]) =
      ⟨[("chat_id", PyVal.str "local"), ("session_id", PyVal.str "abc"),
        ("messages", PyVal.list []),
        ("metadata", PyVal.dict [("chat_id", PyVal.str "temporary-session-abc")])],
       some [("log-type", PyVal.str "audit"), ("timestamp", PyVal.str "t"),
         ("trace-id", PyVal.str "local"), ("service-name", PyVal.str "open-webui"),
         ("service-version", PyVal.str ""), ("environment", PyVal.str ""),
         ("audit-log-type", PyVal.str "access"), ("caller-ip", PyVal.str ""),
         ("subject-id", PyVal.dict []), ("owner-id", PyVal.dict []),
         ("resource-type", PyVal.none), ("event-type", PyVal.str "llm_response"),
         ("additional-data", PyVal.none)]⟩ ∧
    PyVal.str "local" ≠ PyVal.str "temporary-session-abc" := by
  exact ⟨by decide, by decide⟩

/-- **C3 (amended).** For the `chat_id == "local"`, `session_id == "abc"`
exchange: `inlet` (which resolves `chat_id` from `metadata`) derives
`"temporary-session-abc"`, stores it back into the body's metadata, and emits
it as the trace-id (the inbound body has no top-level `chat_id`); `outlet`
(which resolves `chat_id` and `session_id` from the body's top level) derives
and stores the same `"temporary-session-abc"` into metadata, but its own
audit event carries trace-id `"local"`, because the body's top-level
`chat_id` precedes `metadata.chat_id` in the trace-id chain. -/
theorem temporary_session_rewrite :
    (Audit.inlet ⟨["*"], 0, "open-webui", "", "", true⟩ "t" "f1" "f2"
        [("metadata", PyVal.dict [("chat_id", PyVal.str "local"),
          ("session_id", PyVal.str "abc")]), ("messages", PyVal.list [])]
        (PyVal.dict [("email", PyVal.dict [])])).body =
      [("metadata", PyVal.dict [("chat_id", PyVal.str "temporary-session-abc"),
        ("session_id", PyVal.str "abc")]), ("messages", PyVal.list [])] ∧
    ((Audit.inlet ⟨["*"], 0, "open-webui", "", "", true⟩ "t" "f1" "f2"
        [("metadata", PyVal.dict [("chat_id", PyVal.str "local"),
          ("session_id", PyVal.str "abc")]), ("messages", PyVal.list [])]
        (PyVal.dict [("email", PyVal.dict [])])).audit.map
        (fun ev => Dict.get ev "trace-id")) =
      some (PyVal.str "temporary-session-abc") ∧
    Dict.get (Audit.outlet ⟨["*"], 0, "open-webui", "", "", true⟩ "t" "f"
        [("chat_id", PyVal.str "local"), ("session_id", PyVal.str "abc"),
         ("messages", PyVal.list [])]
        (PyVal.dict [("email", PyVal.dict [])])).body "metadata" =
      PyVal.dict [("chat_id", PyVal.str "temporary-session-abc")] ∧
    ((Audit.outlet ⟨["*"], 0, "open-webui", "", "", true⟩ "t" "f"
        [("chat_id", PyVal.str "local"), ("session_id", PyVal.str "abc"),
         ("messages", PyVal.list [])]
        (PyVal.dict [("email", PyVal.dict [])])).audit.map
        (fun ev => Dict.get ev "trace-id")) = some (PyVal.str "local") := by
  exact ⟨by decide, by decide, by decide, by decide⟩

/-! ## C6 and C10: fault absorption in the audit stages -/

/-- **C6 (counterexample).** With an absent identity, `_base_log` raises
(`None["email"]`), the stage absorbs the fault and emits nothing — but the
returned body is NOT unchanged: the `metadata.chat_id` normalization
performed before the fault survives (here `"local"` has already been
rewritten to `"temporary-session-abc"`). -/
theorem inlet_mutation_on_fault_cex :
    Audit.inlet ⟨["*"], 0, "open-webui", "", "", true⟩ "t" "f1" "f2"
        [("metadata", PyVal.dict [("chat_id", PyVal.str "local"),
          ("session_id", PyVal.str "abc")]), ("messages", PyVal.list [])]
        PyVal.none =
      ⟨[("metadata", PyVal.dict [("chat_id", PyVal.str "temporary-session-abc"),
        ("session_id", PyVal.str "abc")]), ("messages", PyVal.list [])],
       Option.none⟩ ∧
    ([("metadata", PyVal.dict [("chat_id", PyVal.str "temporary-session-abc"),
        ("session_id", PyVal.str "abc")]), ("messages", PyVal.list [])] : Dict) ≠
      [("metadata", PyVal.dict [("chat_id", PyVal.str "local"),
        ("session_id", PyVal.str "abc")]), ("messages", PyVal.list [])] := by
  exact ⟨by decide, by decide⟩

/-- **C6 (amended).** `inlet` and `outlet` of the audit filter never propagate
an internal fault (both are total and always return a body), but on a fault
the body is not always returned unchanged: mutations performed before the
fault point survive.  What does hold for every body, identity and fault is
that every key other than `metadata` keeps exactly its entry from the body at
entry, on both stages. -/
theorem stage_fail_open (v : AuditValves) (now f1 f2 : String) (body : Dict)
    (user : PyVal) (k : String) (hk : k ≠ "metadata") :
    Dict.get? (Audit.inlet v now f1 f2 body user).body k = Dict.get? body k ∧
    Dict.get? (Audit.outlet v now f1 body user).body k = Dict.get? body k := by
  constructor
  · unfold Audit.inlet
    dsimp only
    split
    · split
      · exact Dict.get?_set_ne body hk _
      · split
        · exact Dict.get?_set_ne body hk _
        · exact Dict.get?_set_ne body hk _
    · rfl
  · unfold Audit.outlet
    dsimp only
    split
    · split
      · exact Dict.get?_set_ne body hk _
      · split
        · exact Dict.get?_set_ne body hk _
        · exact Dict.get?_set_ne body hk _
    · rfl

/-- **C6 (amended, witness).** -/
theorem stage_fail_open_witness :
    Dict.get? (Audit.inlet ⟨["*"], 0, "open-webui", "", "", true⟩ "t" "f1" "f2"
        [("metadata", PyVal.dict [("chat_id", PyVal.str "local"),
          ("session_id", PyVal.str "abc")]), ("messages", PyVal.list [])]
        PyVal.none).body "messages" =
      Dict.get? [("metadata", PyVal.dict [("chat_id", PyVal.str "local"),
        ("session_id", PyVal.str "abc")]), ("messages", PyVal.list [])] "messages" ∧
    Dict.get? (Audit.outlet ⟨["*"], 0, "open-webui", "", "", true⟩ "t" "f1"
        [("metadata", PyVal.dict [("chat_id", PyVal.str "local"),
          ("session_id", PyVal.str "abc")]), ("messages", PyVal.list [])]
        PyVal.none).body "messages" =
      Dict.get? [("metadata", PyVal.dict [("chat_id", PyVal.str "local"),
        ("session_id", PyVal.str "abc")]), ("messages", PyVal.list [])] "messages" :=
  stage_fail_open ⟨["*"], 0, "open-webui", "", "", true⟩ "t" "f1" "f2"
    [("metadata", PyVal.dict [("chat_id", PyVal.str "local"),
      ("session_id", PyVal.str "abc")]), ("messages", PyVal.list [])]
    PyVal.none "messages" (by decide)

/-- **C10.** When the identity argument is absent (`None`), `__user__["email"]`
raises inside `_base_log` before any emission; the stage absorbs the fault, so
no audit event is emitted, yet the call still returns the body — and the
`metadata.chat_id` normalization (including the temporary-session rewrite) has
already been applied to it before the failure is absorbed. -/
theorem none_identity_no_emit (v : AuditValves) (now f1 f2 : String)
    (body md : Dict)
    (hmd : Dict.getD body "metadata" (.dict []) = .dict md) :
    Audit.inlet v now f1 f2 body PyVal.none =
      ⟨Dict.set body "metadata" (.dict (Dict.set md "chat_id"
        (if Dict.getD md "chat_id" (.str f1) = PyVal.str "local" then
           PyVal.str ("temporary-session-" ++ pyStr (Dict.get md "session_id"))
         else Dict.getD md "chat_id" (.str f1)))), Option.none⟩ ∧
    Audit.outlet v now f1 body PyVal.none =
      ⟨Dict.set body "metadata" (.dict (Dict.set md "chat_id"
        (if Dict.get body "chat_id" = PyVal.str "local" then
           PyVal.str ("temporary-session-" ++ pyStr (Dict.get body "session_id"))
         else Dict.get body "chat_id"))), Option.none⟩ := by
  constructor
  · unfold Audit.inlet
    rw [hmd]
    rfl
  · unfold Audit.outlet
    rw [hmd]
    rfl

/-- **C10 (witness).** -/
theorem none_identity_no_emit_witness :
    Audit.inlet ⟨["*"], 0, "open-webui", "", "", true⟩ "t" "f1" "f2"
        [("metadata", PyVal.dict [("chat_id", PyVal.str "local"),
          ("session_id", PyVal.str "abc")])] PyVal.none =
      ⟨[("metadata", PyVal.dict [("chat_id", PyVal.str "temporary-session-abc"),
        ("session_id", PyVal.str "abc")])], Option.none⟩ ∧
    Audit.outlet ⟨["*"], 0, "open-webui", "", "", true⟩ "t" "f1"
        [("metadata", PyVal.dict [("chat_id", PyVal.str "local"),
          ("session_id", PyVal.str "abc")])] PyVal.none =
      ⟨[("metadata", PyVal.dict [("chat_id", PyVal.none),
        ("session_id", PyVal.str "abc")])], Option.none⟩ := by
  have H := none_identity_no_emit ⟨["*"], 0, "open-webui", "", "", true⟩ "t" "f1" "f2"
    [("metadata", PyVal.dict [("chat_id", PyVal.str "local"),
      ("session_id", PyVal.str "abc")])]
    [("chat_id", PyVal.str "local"), ("session_id", PyVal.str "abc")] (by decide)
  exact ⟨H.1.trans (by decide), H.2.trans (by decide)⟩

/-! ## C9: idempotence of `inlet` on an already-normalized body -/

/-- On a body whose metadata is a dict with a resolved, non-`"local"`
`chat_id`, the audit `inlet` returns the body with `metadata.chat_id`
rewritten to that same resolved value, whatever happens later in the stage. -/
theorem audit_inlet_body (v : AuditValves) (now f1 f2 : String) (body md : Dict)
    (user : PyVal) (c : PyVal)
    (hmd : Dict.getD body "metadata" (.dict []) = .dict md)
    (hc : Dict.get? md "chat_id" = some c)
    (hlocal : c ≠ PyVal.str "local") :
    (Audit.inlet v now f1 f2 body user).body =
      Dict.set body "metadata" (.dict (Dict.set md "chat_id" c)) := by
  unfold Audit.inlet
  rw [hmd]
  dsimp only
  have hgd : Dict.getD md "chat_id" (PyVal.str f1) = c := by
    simp [Dict.getD, hc]
  rw [hgd, if_neg hlocal]
  split
  · rfl
  · split
    · rfl
    · rfl

theorem pyMinInt_ok {a b m : PyVal} (h : pyMinInt a b = .ok m) :
    ∃ x y, a = PyVal.int x ∧ b = PyVal.int y ∧ m = PyVal.int (min x y) := by
  cases a <;> cases b <;>
    first
      | (injection h with h
         exact ⟨_, _, rfl, rfl, h.symm⟩)
      | injection h

theorem apply_cap_get?_ne (desired : Option Int) (body b1 : Dict)
    (h : apply_output_token_cap desired body = .ok b1) {k : String}
    (hk : k ≠ "options") : Dict.get? b1 k = Dict.get? body k := by
  cases desired with
  | none =>
      unfold apply_output_token_cap at h
      injection h with h
      subst h; rfl
  | some d =>
      unfold apply_output_token_cap at h
      dsimp only at h
      split at h
      · exact Except.noConfusion h
      · injection h with h
        subst h
        exact Dict.get?_set_ne body hk _

/-- A successful output-cap application is idempotent: re-applying the same
configured cap leaves the capped body fixed (`min` with the same bound twice
equals `min` with it once, and re-storing an unchanged entry is the identity). -/
theorem apply_cap_idem (desired : Option Int) (body b1 : Dict)
    (h : apply_output_token_cap desired body = .ok b1) :
    apply_output_token_cap desired b1 = .ok b1 := by
  cases desired with
  | none =>
      unfold apply_output_token_cap at h ⊢
      injection h with h
      subst h; rfl
  | some d =>
      unfold apply_output_token_cap at h ⊢
      dsimp only at h ⊢
      split at h
      · exact Except.noConfusion h
      · next m heq =>
          obtain ⟨a, y, hxa, hyb, hm⟩ := pyMinInt_ok heq
          injection hyb with hyb
          subst hyb
          subst hm
          injection h with h
          subst h
          simp only [Dict.get_set_self]
          have hgd : Dict.getD (Dict.set (match Dict.get body "options" with
              | PyVal.dict o => o
              | _ => ([] : Dict)) "max_tokens" (PyVal.int (min a d)))
              "max_tokens" (PyVal.int d) = PyVal.int (min a d) := by
            simp [Dict.getD, Dict.get?_set_self]
          rw [hgd]
          have hmin2 : pyMinInt (PyVal.int (min a d)) (PyVal.int d) =
              .ok (PyVal.int (min a d)) := by
            simp [pyMinInt, min_assoc]
          rw [hmin2]
          dsimp only
          rw [Dict.set_self (Dict.get?_set_self _ "max_tokens" _)]
          rw [Dict.set_self (Dict.get?_set_self body "options" _)]

/-- A successful message-length `inlet` is idempotent: the length check only
reads `messages`, which the output-cap step never modifies, and the cap step
itself is idempotent. -/
theorem ml_inlet_idem (v : MLValves) (b b1 : Dict) (h : ML.inlet v b = .ok b1) :
    ML.inlet v b1 = .ok b1 := by
  unfold ML.inlet at h ⊢
  cases hvc : v.max_user_message_chars with
  | none =>
      rw [hvc] at h
      dsimp only at h ⊢
      exact apply_cap_idem _ _ _ h
  | some mc =>
      rw [hvc] at h
      dsimp only at h ⊢
      by_cases h0 : 0 < mc
      case neg =>
        rw [if_neg h0] at h ⊢
        dsimp only at h ⊢
        exact apply_cap_idem _ _ _ h
      case pos =>
        rw [if_pos h0] at h ⊢
        cases hs : get_last_message_by_roles (Dict.getD b "messages" (PyVal.list []))
            v.target_user_roles with
        | error e =>
            rw [hs] at h
            exact Except.noConfusion h
        | ok sel =>
            rw [hs] at h
            cases sel with
            | none =>
                dsimp only at h
                have hmsg : Dict.getD b1 "messages" (PyVal.list []) =
                    Dict.getD b "messages" (PyVal.list []) := by
                  unfold Dict.getD
                  rw [apply_cap_get?_ne _ _ _ h (by decide)]
                rw [hmsg, hs]
                dsimp only
                exact apply_cap_idem _ _ _ h
            | some m =>
                dsimp only at h
                by_cases ht : pyTruthy m = true
                case neg =>
                    rw [if_neg ht] at h
                    dsimp only at h
                    have hmsg : Dict.getD b1 "messages" (PyVal.list []) =
                        Dict.getD b "messages" (PyVal.list []) := by
                      unfold Dict.getD
                      rw [apply_cap_get?_ne _ _ _ h (by decide)]
                    rw [hmsg, hs]
                    dsimp only
                    rw [if_neg ht]
                    dsimp only
                    exact apply_cap_idem _ _ _ h
                case pos =>
                    rw [if_pos ht] at h
                    cases hcont : m.getM "content" with
                    | error e =>
                        rw [hcont] at h
                        exact Except.noConfusion h
                    | ok content =>
                        rw [hcont] at h
                        dsimp only at h
                        by_cases hlen : ((compute_text_length content : Int) > mc)
                        case pos =>
                            rw [if_pos hlen] at h
                            exact Except.noConfusion h
                        case neg =>
                            rw [if_neg hlen] at h
                            dsimp only at h
                            have hmsg : Dict.getD b1 "messages" (PyVal.list []) =
                                Dict.getD b "messages" (PyVal.list []) := by
                              unfold Dict.getD
                              rw [apply_cap_get?_ne _ _ _ h (by decide)]
                            rw [hmsg, hs]
                            dsimp only
                            rw [if_pos ht, hcont]
                            dsimp only
                            rw [if_neg hlen]
                            dsimp only
                            exact apply_cap_idem _ _ _ h

/-- **C9.** On an already-normalized body, `inlet` applied a second time
produces the same mutated body as the first call.  For the audit filter
(metadata a dict whose `chat_id` is already resolved and is not `"local"`)
the body after two applications equals the body after one, with no cumulative
mutation of metadata, whatever the identities, timestamps or fresh
identifiers of the two calls.  For the message-length filter, a successful
`inlet` is idempotent: re-running it on its own output returns that output
unchanged, with no cumulative mutation of options. -/
theorem inlet_idempotent (v : AuditValves) (now now2 f1 f1a f2 f2a : String)
    (body md : Dict) (c : PyVal) (user user2 : PyVal)
    (hmd : Dict.getD body "metadata" (.dict []) = .dict md)
    (hc : Dict.get? md "chat_id" = some c)
    (hlocal : c ≠ PyVal.str "local") :
    (Audit.inlet v now2 f1a f2a (Audit.inlet v now f1 f2 body user).body
        user2).body =
      (Audit.inlet v now f1 f2 body user).body ∧
    (∀ mlv : MLValves, ∀ b b1 : Dict,
      ML.inlet mlv b = .ok b1 → ML.inlet mlv b1 = .ok b1) := by
  constructor
  · rw [audit_inlet_body v now f1 f2 body md user c hmd hc hlocal]
    have h1 : Dict.getD (Dict.set body "metadata" (.dict (Dict.set md "chat_id" c)))
        "metadata" (.dict []) = .dict (Dict.set md "chat_id" c) := by
      simp [Dict.getD, Dict.get?_set_self]
    have h2 : Dict.get? (Dict.set md "chat_id" c) "chat_id" = some c :=
      Dict.get?_set_self md "chat_id" c
    rw [audit_inlet_body v now2 f1a f2a _ _ user2 c h1 h2 hlocal]
    rw [Dict.set_self h2]
    exact Dict.set_self (Dict.get?_set_self body "metadata" _)
  · exact fun mlv b b1 h => ml_inlet_idem mlv b b1 h

/-- **C9 (witness).** A body with resolved `chat_id = "chat-7"` is unchanged
by a second audit `inlet`, and a successful message-length `inlet` (limit 10,
message of length 5, cap 100 over an existing 50) is idempotent. -/
theorem inlet_idempotent_witness :
    (Audit.inlet ⟨["*"], 0, "open-webui", "", "", true⟩ "t2" "g1" "g2"
        (Audit.inlet ⟨["*"], 0, "open-webui", "", "", true⟩ "t" "f1" "f2"
          [("metadata", PyVal.dict [("chat_id", PyVal.str "chat-7")]),
           ("messages", PyVal.list [])]
          (PyVal.dict [("email", PyVal.dict [])])).body
        (PyVal.dict [("email", PyVal.dict [])])).body =
      (Audit.inlet ⟨["*"], 0, "open-webui", "", "", true⟩ "t" "f1" "f2"
        [("metadata", PyVal.dict [("chat_id", PyVal.str "chat-7")]),
         ("messages", PyVal.list [])]
        (PyVal.dict [("email", PyVal.dict [])])).body ∧
    ML.inlet ⟨["*"], 0, ["user"], some 10, some 100⟩
        [("messages", PyVal.list [PyVal.dict
          [("role", PyVal.str "user"), ("content", PyVal.str "hello")]]),
         ("options", PyVal.dict [("max_tokens", PyVal.int 50)])] =
      .ok [("messages", PyVal.list [PyVal.dict
          [("role", PyVal.str "user"), ("content", PyVal.str "hello")]]),
         ("options", PyVal.dict [("max_tokens", PyVal.int 50)])] := by
  have H := inlet_idempotent ⟨["*"], 0, "open-webui", "", "", true⟩
    "t" "t2" "f1" "g1" "f2" "g2"
    [("metadata", PyVal.dict [("chat_id", PyVal.str "chat-7")]),
     ("messages", PyVal.list [])]
    [("chat_id", PyVal.str "chat-7")] (PyVal.str "chat-7")
    (PyVal.dict [("email", PyVal.dict [])]) (PyVal.dict [("email", PyVal.dict [])])
    (by decide) (by decide) (by decide)
  refine ⟨H.1, ?_⟩
  exact H.2 ⟨["*"], 0, ["user"], some 10, some 100⟩
    [("messages", PyVal.list [PyVal.dict
      [("role", PyVal.str "user"), ("content", PyVal.str "hello")]]),
     ("options", PyVal.dict [("max_tokens", PyVal.int 50)])]
    [("messages", PyVal.list [PyVal.dict
      [("role", PyVal.str "user"), ("content", PyVal.str "hello")]]),
     ("options", PyVal.dict [("max_tokens", PyVal.int 50)])] (by decide)

end OWP
